import Mathlib

/-
  Verification of the mono-wrapper handle/validity protocol and its
  surrounding data model, embedded shallowly from src/src/monowrapper.h
  (with src/src/MonoWrapper.h as the older variant of the same header).

  The handle protocol (ManagedHandle / ManagedBase) is fully inline in the
  header, so its embedding below transcribes the member functions directly.
  An entity (ManagedBase) stores a single observer pointer m_handle and a
  validity bit m_valid; an observer (ManagedHandle) stores its entity
  pointer m_object and its own validity bit m_valid.  We model one entity
  together with a heap of observers addressed by natural numbers; a
  destroyed observer is removed from the heap (its slot becomes none).
-/

namespace MonoWrapper

/-- The per-observer state of a `ManagedHandle`: whether its `m_object`
pointer is set (it always is after construction) and its `m_valid` flag. -/
structure HandleState where
  mObjectSet : Bool
  mValid : Bool
deriving DecidableEq

/-- The whole protocol state: the entity part of `ManagedBase`
(`m_handle`, `m_valid`), the heap of live observers, and whether the
entity itself has been destroyed. -/
structure World where
  mHandle : Option Nat
  mValid : Bool
  handles : Nat → Option HandleState
  entityDestroyed : Bool

/-- Fresh entity, no observers: the `ManagedBase` constructor initializes
`m_handle(nullptr), m_valid(false)`. -/
def initWorld : World := ⟨none, false, fun _ => none, false⟩

/-- `ManagedHandle::Validate` / `Invalidate`: write the observer's
`m_valid` flag.  A write through a pointer to a destroyed observer has no
modelled effect (the slot is gone); such writes are reported separately by
`entityDerefStale`. -/
def setHandleValid (w : World) (h : Nat) (b : Bool) : World :=
  { w with handles := fun k =>
      if k = h then (w.handles k).map (fun s => { s with mValid := b }) else w.handles k }

/-- `ManagedBase::AttachHandle(handle)`:
`handle->Validate(); m_handle = handle; if (m_valid) m_handle->Validate(); else m_handle->Invalidate();` -/
def AttachHandle (w : World) (h : Nat) : World :=
  let w1 := setHandleValid w h true
  let w2 := { w1 with mHandle := some h }
  if w2.mValid then setHandleValid w2 h true else setHandleValid w2 h false

/-- `ManagedBase::DetachHandle(handle)`:
`handle->Invalidate(); m_handle = nullptr;` (unconditionally clears the
stored link, whichever observer is passed). -/
def DetachHandle (w : World) (h : Nat) : World :=
  let w1 := setHandleValid w h false
  { w1 with mHandle := none }

/-- `ManagedBase::InvalidateHandle()`:
`if (m_handle) m_handle->Invalidate(); m_valid = false;` (note that
`m_handle` is not cleared). -/
def InvalidateHandle (w : World) : World :=
  let w1 := match w.mHandle with
    | some h => setHandleValid w h false
    | none => w
  { w1 with mValid := false }

/-- `ManagedBase::ValidateHandle()`:
`if (m_handle) m_handle->Validate(); m_valid = true;` -/
def ValidateHandle (w : World) : World :=
  let w1 := match w.mHandle with
    | some h => setHandleValid w h true
    | none => w
  { w1 with mValid := true }

/-- The `ManagedHandle(T* obj)` constructor: member init
`m_object(obj), m_valid(false)`, then `m_object->AttachHandle(this)`. -/
def newManagedHandle (w : World) (h : Nat) : World :=
  AttachHandle
    { w with handles := fun k => if k = h then some ⟨true, false⟩ else w.handles k } h

/-- Whether the `~ManagedHandle` destructor body takes its
`if (m_object && m_valid)` branch, i.e. calls `m_object->DetachHandle(this)`. -/
def dtorDetaches (w : World) (h : Nat) : Bool :=
  match w.handles h with
  | some s => s.mObjectSet && s.mValid
  | none => false

/-- `~ManagedHandle()`: `if (m_object && m_valid) m_object->DetachHandle(this);`
then the observer's storage is gone. -/
def destroyManagedHandle (w : World) (h : Nat) : World :=
  let w1 := if dtorDetaches w h then DetachHandle w h else w
  { w1 with handles := fun k => if k = h then none else w1.handles k }

/-- Destroying the entity.  `ManagedBase` has no destructor of its own and
the derived destructors in the header (e.g. `ManagedAssembly::~ManagedAssembly() {}`)
are empty, so no observer is touched; only the entity's storage is gone. -/
def destroyEntity (w : World) : World :=
  { w with entityDestroyed := true }

/-- `~ManagedHandle` would read through a dangling `m_object` pointer:
the destructor branch is taken while the entity is already destroyed. -/
def dtorDanglingRead (w : World) (h : Nat) : Bool :=
  dtorDetaches w h && w.entityDestroyed

/-- `ManagedHandle::Valid()`: the observer's `m_valid` flag (false once the
observer itself is gone). -/
def HandleValid (w : World) (h : Nat) : Bool :=
  match w.handles h with
  | some s => s.mValid
  | none => false

/-- The entity's `m_handle` is non-null but points at a destroyed observer,
so a subsequent `ValidateHandle` / `InvalidateHandle` on the entity would
write through a stale pointer. -/
def entityDerefStale (w : World) : Bool :=
  match w.mHandle with
  | some h => (w.handles h).isNone
  | none => false

/-- The protocol operations a caller (or the entity owner) can perform. -/
inductive Op where
  | newHandle (h : Nat)
  | destroyHandle (h : Nat)
  | detach (h : Nat)
  | invalidate
  | validate
  | destroyEnt

/-- One protocol step. -/
def step (w : World) : Op → World
  | Op.newHandle h => newManagedHandle w h
  | Op.destroyHandle h => destroyManagedHandle w h
  | Op.detach h => DetachHandle w h
  | Op.invalidate => InvalidateHandle w
  | Op.validate => ValidateHandle w
  | Op.destroyEnt => destroyEntity w

/-- Run a trace of protocol operations. -/
def run (w : World) (tr : List Op) : World := tr.foldl step w

/-- Observer `h` has been attached (constructed on the entity) during the
trace and neither detached nor destroyed afterwards. -/
def attachedAfter (tr : List Op) (h : Nat) : Bool :=
  tr.foldl (fun b op =>
    match op with
    | Op.newHandle k => if k = h then true else b
    | Op.detach k => if k = h then false else b
    | Op.destroyHandle k => if k = h then false else b
    | _ => b) false

/-- The trace contains no attach (observer construction) operation. -/
def noNewAttach (tr : List Op) : Bool :=
  tr.all (fun op => match op with | Op.newHandle _ => false | _ => true)

/-- Observable equality of two protocol states: same entity link and
validity, same state of every observer, same entity liveness. -/
def obsEq (w v : World) : Prop :=
  w.mHandle = v.mHandle ∧ w.mValid = v.mValid ∧
  (∀ k, w.handles k = v.handles k) ∧ w.entityDestroyed = v.entityDestroyed

/-- The constructors declared for `ManagedObject` in the source
(monowrapper.h lines 269-274, MonoWrapper.h lines 210-218): the default,
copy and move constructors, and the explicit constructor from a raw
`MonoObject*` plus class (plus handle type in monowrapper.h). -/
inductive ManagedObjectCtorKind where
  | defaultCtor
  | copyCtor
  | moveCtor
  | explicitFromRaw
deriving DecidableEq

/-- Which `ManagedObject` constructors the source deletes, transcribed from
`ManagedObject() = delete; ManagedObject(const ManagedObject&) = delete;
ManagedObject(ManagedObject&&) = delete;` (monowrapper.h 269-271; the same
three deletions appear in MonoWrapper.h 210-212). -/
def managedObjectCtorDeleted : ManagedObjectCtorKind → Bool
  | ManagedObjectCtorKind.defaultCtor => true
  | ManagedObjectCtorKind.copyCtor => true
  | ManagedObjectCtorKind.moveCtor => true
  | ManagedObjectCtorKind.explicitFromRaw => false

/-- `EManagedObjectHandleType` (monowrapper.h lines 225-245): HANDLE = 0
(movable), HANDLE_PINNED = 1, WEAKREF = 2. -/
inductive EManagedObjectHandleType where
  | HANDLE
  | HANDLE_PINNED
  | WEAKREF
deriving DecidableEq

/-- The numeric values assigned by the enum declaration. -/
def EManagedObjectHandleType.value : EManagedObjectHandleType → Nat
  | EManagedObjectHandleType.HANDLE => 0
  | EManagedObjectHandleType.HANDLE_PINNED => 1
  | EManagedObjectHandleType.WEAKREF => 2

/-- The data of a `ManagedObject` relevant to its GC handle: the raw object,
its class back-reference (both modelled as identifiers), the GC handle id
(member initializer `m_gcHandle = 0`), and the handle kind. -/
structure ManagedObject where
  m_obj : Nat
  m_class : Nat
  m_gcHandle : Nat
  m_handleType : EManagedObjectHandleType
deriving DecidableEq

/-- The `ManagedObject(MonoObject* obj, ManagedClass& cls,
EManagedObjectHandleType type = EManagedObjectHandleType::HANDLE_PINNED)`
constructor; `none` models a call that omits the defaulted handle-type
argument, which C++ fills with `HANDLE_PINNED`. -/
def mkManagedObject (obj cls : Nat) (ty : Option EManagedObjectHandleType) : ManagedObject :=
  ⟨obj, cls, 0, ty.getD EManagedObjectHandleType.HANDLE_PINNED⟩

/-- `ManagedException_t` exactly as declared in monowrapper.h lines 68-76:
six string fields. -/
structure ManagedException_t where
  message : String
  stackTrace : String
  source : String
  klass : String
  ns : String
  string_rep : String
deriving DecidableEq

/-- The data the runtime exposes on a raised managed exception object. -/
structure MonoExceptionObject where
  excMessage : String
  excStackTrace : String
  excSource : String
  excClassName : String
  excNamespace : String
  excStringRep : String
deriving DecidableEq

/-- Modelled from the spec: the body of
`ManagedScriptContext::GetExceptionDescriptor` is not under src/
(monowrapper.h line 618 only declares it).  Per the spec it "extracts
message, stack trace, source, class name, namespace, and stringified
representation from a raised managed object into a pure-data record". -/
def GetExceptionDescriptor (exc : MonoExceptionObject) : ManagedException_t :=
  ⟨exc.excMessage, exc.excStackTrace, exc.excSource, exc.excClassName,
   exc.excNamespace, exc.excStringRep⟩

/-- One type row of an assembly's image, with the per-class member counts
the round-trip property compares. -/
structure ClassInfo where
  namespaceName : String
  className : String
  numMethods : Nat
  numFields : Nat
  numProperties : Nat
deriving DecidableEq

/-- The reflection-cache state of a `ManagedAssembly`: the image's type
rows (fixed runtime input), the cached class table `m_classes`, and the
`m_populated` flag (monowrapper.h lines 133-138). -/
structure ManagedAssembly where
  image : List ClassInfo
  m_classes : List ClassInfo
  m_populated : Bool
deriving DecidableEq

/-- Modelled from the spec: the body of
`ManagedAssembly::PopulateReflectionInfo` is not under src/ (monowrapper.h
line 154 only declares it).  Per the spec it "enumerates every type row in
the image", stores a class node per row in the class table, and is
"idempotent: second call is a no-op if already populated". -/
def ManagedAssembly.PopulateReflectionInfo (a : ManagedAssembly) : ManagedAssembly :=
  if a.m_populated then a
  else { a with m_classes := a.image, m_populated := true }

/-- Modelled from the spec: the body of
`ManagedAssembly::DisposeReflectionInfo` is not under src/ (monowrapper.h
line 155 only declares it).  Per the spec it destroys the class nodes,
"clears the class table, then sets populated-flag false". -/
def ManagedAssembly.DisposeReflectionInfo (a : ManagedAssembly) : ManagedAssembly :=
  { a with m_classes := [], m_populated := false }

/-- Claim C1 as stated: after `InvalidateHandle`, every observer that was
attached to the entity (and not detached or destroyed) reports
`Valid() == false`. -/
def InvalidateMarksAllAttached : Prop :=
  ∀ (tr : List Op) (h : Nat), attachedAfter tr h = true →
    HandleValid (run initWorld (tr ++ [Op.invalidate])) h = false

/-- Claim C3's idempotence part as stated: calling `DetachHandle` on an
(entity, observer) pair that is already detached leaves the states of the
entity and of all observers unchanged. -/
def DetachSafeOnDetachedPair : Prop :=
  ∀ (tr : List Op) (h : Nat),
    (run initWorld tr).mHandle ≠ some h →
    obsEq (DetachHandle (run initWorld tr) h) (run initWorld tr)

/-- Claim C4 as stated: once the entity is invalidated, no observer of the
entity reports valid again until a new observer attach happens. -/
def NoRevalidationUntilAttach : Prop :=
  ∀ (tr trPost : List Op) (h : Nat),
    attachedAfter (tr ++ Op.invalidate :: trPost) h = true →
    noNewAttach trPost = true →
    HandleValid (run initWorld (tr ++ Op.invalidate :: trPost)) h = false

/-- Claim C5 as stated: if the entity is destroyed while an observer is
still attached, the observer subsequently reports invalid, and the
observer's destructor performs no read through a dangling entity pointer. -/
def DestroyedEntityObserversInvalid : Prop :=
  ∀ (tr : List Op) (h : Nat),
    (run initWorld tr).mHandle = some h →
    HandleValid (destroyEntity (run initWorld tr)) h = false ∧
    dtorDanglingRead (destroyEntity (run initWorld tr)) h = false

/-- Claim C1, counterexample: the claim "invalidate marks every attached
observer invalid" is false as stated.  Observer 0 is attached while the
entity is valid; attaching observer 1 overwrites the single `m_handle`
slot, so `InvalidateHandle` marks only observer 1, and observer 0 still
reports `Valid() == true` afterwards. -/
theorem C1_counterexample : ¬ InvalidateMarksAllAttached := by
  intro hc
  have h0 := hc [Op.newHandle 0, Op.validate, Op.newHandle 1] 0 (by decide)
  exact absurd h0 (by decide)

/-- Claim C1 (amended): `InvalidateHandle` transitions the entity to
invalid and marks the single currently linked observer (the one stored in
`m_handle`, i.e. the most recently attached and not since detached)
invalid in the same step. -/
theorem C1_theorem (w : World) (h : Nat) (hh : w.mHandle = some h) :
    (InvalidateHandle w).mValid = false ∧ HandleValid (InvalidateHandle w) h = false := by
  refine ⟨rfl, ?_⟩
  unfold InvalidateHandle
  rw [hh]
  unfold HandleValid setHandleValid
  simp only []
  cases hs : w.handles h <;> simp [hs]

/-- Concrete instance of the amended C1: after attaching observer 0 to a
fresh entity, `InvalidateHandle` leaves the entity invalid and observer 0
reporting invalid. -/
theorem C1_witness :
    (InvalidateHandle (run initWorld [Op.newHandle 0])).mValid = false ∧
    HandleValid (InvalidateHandle (run initWorld [Op.newHandle 0])) 0 = false :=
  C1_theorem (run initWorld [Op.newHandle 0]) 0 (by decide)

/-- Claim C2: attaching an observer (the `ManagedHandle` constructor, which
calls `ManagedBase::AttachHandle`) links the observer into `m_handle` and
sets the observer's validity equal to the entity's current validity; in
particular an observer attached to an already-invalid entity reports
`Valid() == false` immediately after attach. -/
theorem C2_theorem (w : World) (h : Nat) :
    HandleValid (newManagedHandle w h) h = w.mValid ∧
    (newManagedHandle w h).mHandle = some h ∧
    (newManagedHandle w h).mValid = w.mValid := by
  unfold newManagedHandle AttachHandle setHandleValid HandleValid
  cases hv : w.mValid <;> simp [hv]

/-- Claim C3, counterexample: detach on an already-detached pair is not
harmless in general.  After observer 0 is detached and observer 1 is
attached, calling `DetachHandle` with observer 0 again clears `m_handle`
(which pointed at observer 1), changing the entity's state. -/
theorem C3_counterexample : ¬ DetachSafeOnDetachedPair := by
  intro hc
  have h0 := hc [Op.newHandle 0, Op.detach 0, Op.newHandle 1] 0 (by decide)
  exact absurd h0.1 (by decide)

/-- Claim C3 (amended): `DetachHandle` clears the entity's stored link and
marks the passed observer invalid; re-detaching an already-detached pair
is a no-op provided no other observer is currently linked (if one is, the
detach silently clears that link too). -/
theorem C3_theorem (w : World) (h : Nat) :
    (DetachHandle w h).mHandle = none ∧
    HandleValid (DetachHandle w h) h = false ∧
    (w.mHandle = none → HandleValid w h = false → obsEq (DetachHandle w h) w) := by
  refine ⟨rfl, ?_, ?_⟩
  · unfold DetachHandle setHandleValid HandleValid
    cases hs : w.handles h <;> simp [hs]
  · intro hm hv
    refine ⟨by rw [hm]; rfl, rfl, ?_, rfl⟩
    intro k
    unfold DetachHandle setHandleValid
    simp only []
    by_cases hk : k = h
    · subst hk
      unfold HandleValid at hv
      cases hs : w.handles k
      · simp [hs]
      · rename_i s
        rw [hs] at hv
        cases s
        simp at hv
        simp [hs, hv]
    · simp [hk]

/-- Concrete instance of the amended C3: detaching observer 0 from a fresh
entity it was attached to, then detaching it again, leaves the state
observably unchanged. -/
theorem C3_witness :
    (DetachHandle (run initWorld [Op.newHandle 0, Op.detach 0]) 0).mHandle = none ∧
    HandleValid (DetachHandle (run initWorld [Op.newHandle 0, Op.detach 0]) 0) 0 = false ∧
    obsEq (DetachHandle (run initWorld [Op.newHandle 0, Op.detach 0]) 0)
      (run initWorld [Op.newHandle 0, Op.detach 0]) := by
  have h := C3_theorem (run initWorld [Op.newHandle 0, Op.detach 0]) 0
  exact ⟨h.1, h.2.1, h.2.2 (by decide) (by decide)⟩

/-- Claim C4, counterexample: validity transitions are not monotonic within
an entity lifetime.  After `InvalidateHandle`, a plain `ValidateHandle`
(with no new attach anywhere) makes the still-linked observer report
`Valid() == true` again. -/
theorem C4_counterexample : ¬ NoRevalidationUntilAttach := by
  intro hc
  have h0 := hc [Op.newHandle 0] [Op.validate] 0 (by decide) (by decide)
  exact absurd h0 (by decide)

/-- Claim C4 (amended): `InvalidateHandle` marks the linked observer
invalid, but a subsequent `ValidateHandle` on the same entity marks it (and
the entity) valid again: the invalid-to-valid transition also occurs via
`ValidateHandle`, not only on attach to a live entity. -/
theorem C4_theorem (w : World) (h : Nat) (hh : w.mHandle = some h)
    (hp : (w.handles h).isSome = true) :
    HandleValid (InvalidateHandle w) h = false ∧
    HandleValid (ValidateHandle (InvalidateHandle w)) h = true ∧
    (ValidateHandle (InvalidateHandle w)).mValid = true := by
  obtain ⟨s, hs⟩ := Option.isSome_iff_exists.mp hp
  simp [InvalidateHandle, ValidateHandle, setHandleValid, HandleValid, hh, hs]

/-- Concrete instance of the amended C4: attach observer 0, invalidate
(observer reports invalid), then `ValidateHandle` makes it report valid
again with no new attach. -/
theorem C4_witness :
    HandleValid (InvalidateHandle (run initWorld [Op.newHandle 0])) 0 = false ∧
    HandleValid (ValidateHandle (InvalidateHandle (run initWorld [Op.newHandle 0]))) 0 = true ∧
    (ValidateHandle (InvalidateHandle (run initWorld [Op.newHandle 0]))).mValid = true :=
  C4_theorem (run initWorld [Op.newHandle 0]) 0 (by decide) (by decide)

/-- Claim C5, counterexample: destroying the entity while a valid observer
is attached does not mark the observer invalid (no destructor in the source
invalidates handles), and the observer's own destructor would then read
through the dangling `m_object` pointer. -/
theorem C5_counterexample : ¬ DestroyedEntityObserversInvalid := by
  intro hc
  have h0 := (hc [Op.newHandle 0, Op.validate] 0 (by decide)).1
  exact absurd h0 (by decide)

/-- Claim C5 (amended): an observer of a destroyed entity observes invalid,
and its destructor performs no read through the dangling entity pointer,
provided the entity was invalidated (`InvalidateHandle`, as done by
`Unload` / `DisposeReflectionInfo`) before being destroyed; plain
destruction without prior invalidation leaves the observer valid and its
destructor reads the dangling pointer. -/
theorem C5_theorem (w : World) (h : Nat) (hh : w.mHandle = some h) :
    HandleValid (destroyEntity (InvalidateHandle w)) h = false ∧
    dtorDanglingRead (destroyEntity (InvalidateHandle w)) h = false := by
  unfold destroyEntity dtorDanglingRead dtorDetaches InvalidateHandle setHandleValid HandleValid
  rw [hh]
  simp only []
  cases hs : w.handles h <;> simp [hs]

/-- Concrete instance of the amended C5: invalidate before destroying the
entity; the attached observer 0 then reports invalid and its destructor
performs no dangling read. -/
theorem C5_witness :
    HandleValid (destroyEntity (InvalidateHandle (run initWorld [Op.newHandle 0, Op.validate]))) 0 = false ∧
    dtorDanglingRead (destroyEntity (InvalidateHandle (run initWorld [Op.newHandle 0, Op.validate]))) 0 = false :=
  C5_theorem (run initWorld [Op.newHandle 0, Op.validate]) 0 (by decide)

/-- Claim C10: destroying an attached observer whose valid flag is false
does not detach it (`~ManagedHandle` only calls `DetachHandle` when
`m_object && m_valid`): the entity's `m_handle` still holds the destroyed
observer, so a subsequent `ValidateHandle` or `InvalidateHandle` on the
entity dereferences that stale pointer rather than finding no observer. -/
theorem C10_theorem (w : World) (h : Nat)
    (hh : w.mHandle = some h) (hv : HandleValid w h = false) :
    (destroyManagedHandle w h).mHandle = some h ∧
    (destroyManagedHandle w h).handles h = none ∧
    entityDerefStale (destroyManagedHandle w h) = true := by
  have hd : dtorDetaches w h = false := by
    unfold dtorDetaches
    unfold HandleValid at hv
    cases hs : w.handles h
    · rfl
    · rw [hs] at hv
      simp at hv
      simp [hv]
  simp [destroyManagedHandle, hd, entityDerefStale, hh]

/-- Concrete instance of C10: attach observer 0, invalidate the entity
(observer 0 now invalid), then destroy observer 0: the entity still stores
the destroyed observer in `m_handle`, and validating would write through
the stale pointer. -/
theorem C10_witness :
    (destroyManagedHandle (run initWorld [Op.newHandle 0, Op.invalidate]) 0).mHandle = some 0 ∧
    (destroyManagedHandle (run initWorld [Op.newHandle 0, Op.invalidate]) 0).handles 0 = none ∧
    entityDerefStale (destroyManagedHandle (run initWorld [Op.newHandle 0, Op.invalidate]) 0) = true :=
  C10_theorem (run initWorld [Op.newHandle 0, Op.invalidate]) 0 (by decide) (by decide)

/-- Claim C6: contrary to the claim, `ManagedObject` is not a copyable
value: the source deletes both the copy constructor and the move
constructor, so no copy of a `ManagedObject` can be constructed. -/
theorem C6_theorem :
    managedObjectCtorDeleted ManagedObjectCtorKind.copyCtor = true ∧
    managedObjectCtorDeleted ManagedObjectCtorKind.moveCtor = true :=
  ⟨rfl, rfl⟩

/-- Claim C7: a `ManagedObject` constructed without an explicit handle-kind
argument gets GC handle kind `HANDLE_PINNED` (the constructor's default
argument and the member initializer), and the enum has exactly the three
kinds movable (`HANDLE`), pinned (`HANDLE_PINNED`) and weak (`WEAKREF`). -/
theorem C7_theorem (obj cls : Nat) :
    (mkManagedObject obj cls none).m_handleType = EManagedObjectHandleType.HANDLE_PINNED ∧
    ∀ t : EManagedObjectHandleType,
      t = EManagedObjectHandleType.HANDLE ∨ t = EManagedObjectHandleType.HANDLE_PINNED ∨
      t = EManagedObjectHandleType.WEAKREF := by
  refine ⟨rfl, ?_⟩
  intro t
  cases t
  · exact Or.inl rfl
  · exact Or.inr (Or.inl rfl)
  · exact Or.inr (Or.inr rfl)

/-- Claim C8: the exception descriptor produced by
`GetExceptionDescriptor` is a pure-data record carrying exactly the six
fields message, stackTrace, source, class, namespace and string
representation of the raised object, and any `ManagedException_t` is fully
determined by those six fields. -/
theorem C8_theorem (exc : MonoExceptionObject) :
    GetExceptionDescriptor exc =
      ManagedException_t.mk exc.excMessage exc.excStackTrace exc.excSource
        exc.excClassName exc.excNamespace exc.excStringRep ∧
    ∀ e : ManagedException_t,
      e = ManagedException_t.mk e.message e.stackTrace e.source e.klass e.ns e.string_rep :=
  ⟨rfl, fun _ => rfl⟩

/-- Claim C9: `PopulateReflectionInfo` is idempotent (a second call on an
already-populated assembly is a no-op), and populate-dispose-populate
leaves the assembly in the same state as a single populate, assuming the
population coherence invariant (a populated class table was built from the
image). -/
theorem C9_theorem (a : ManagedAssembly)
    (hcoh : a.m_populated = true → a.m_classes = a.image) :
    a.PopulateReflectionInfo.PopulateReflectionInfo = a.PopulateReflectionInfo ∧
    a.PopulateReflectionInfo.DisposeReflectionInfo.PopulateReflectionInfo
      = a.PopulateReflectionInfo := by
  obtain ⟨img, cls, pop⟩ := a
  cases pop
  · simp [ManagedAssembly.PopulateReflectionInfo, ManagedAssembly.DisposeReflectionInfo]
  · have hc := hcoh rfl
    simp only [] at hc
    subst hc
    simp [ManagedAssembly.PopulateReflectionInfo, ManagedAssembly.DisposeReflectionInfo]

/-- Concrete instance of C9 on an unpopulated single-class assembly. -/
theorem C9_witness :
    (ManagedAssembly.mk [ClassInfo.mk "Sample" "Greeter" 1 0 0] [] false).PopulateReflectionInfo.PopulateReflectionInfo
      = (ManagedAssembly.mk [ClassInfo.mk "Sample" "Greeter" 1 0 0] [] false).PopulateReflectionInfo ∧
    (ManagedAssembly.mk [ClassInfo.mk "Sample" "Greeter" 1 0 0] [] false).PopulateReflectionInfo.DisposeReflectionInfo.PopulateReflectionInfo
      = (ManagedAssembly.mk [ClassInfo.mk "Sample" "Greeter" 1 0 0] [] false).PopulateReflectionInfo :=
  C9_theorem (ManagedAssembly.mk [ClassInfo.mk "Sample" "Greeter" 1 0 0] [] false) (by decide)

end MonoWrapper
